import Mathlib

/-!
Verification development for the svg2png converter (svg2png.js).

The JavaScript source is embedded shallowly: pure fragments become Lean
functions, DOM mutation becomes explicit tree rewriting, the fetch cache
becomes explicit state passing, and JavaScript number coercions are made
explicit (NaN is modelled as Option.none).
-/

namespace Svg2Png

/-! ## DOM model

Elements carry a tag, an attribute list and children.  Attribute lists
model the NamedNodeMap: getAttribute returns the value or null (none),
setAttribute overwrites in place or appends, removeAttribute deletes.
-/

inductive Elem : Type where
  | node (tag : String) (attrs : List (String × String)) (children : List Elem)

def Elem.tag : Elem → String
  | .node t _ _ => t

def Elem.attrs : Elem → List (String × String)
  | .node _ a _ => a

def Elem.children : Elem → List Elem
  | .node _ _ cs => cs

def getAttr (a : List (String × String)) (k : String) : Option String :=
  (a.find? (fun p => p.1 == k)).map (fun p => p.2)

/-- Models Element.setAttribute: replace the value of an existing attribute,
otherwise append the new attribute. -/
def setAttr : List (String × String) → String → String → List (String × String)
  | [], k, v => [(k, v)]
  | p :: rest, k, v => if p.1 == k then (k, v) :: rest else p :: setAttr rest k v

/-- Models Element.removeAttribute. -/
def removeAttr (a : List (String × String)) (k : String) : List (String × String) :=
  a.filter (fun p => p.1 != k)

def Elem.getAttribute (e : Elem) (k : String) : Option String :=
  getAttr e.attrs k

mutual
/-- Descendants of an element in document order (querySelectorAll scope:
the element itself is excluded). -/
def Elem.descendants : Elem → List Elem
  | .node _ _ cs => descList cs
/-- Descendants of a forest, each root included. -/
def descList : List Elem → List Elem
  | [] => []
  | c :: cs => c :: (c.descendants ++ descList cs)
end

/-! ## SVGProcessor.applyColorStyling -/

/-- Constant SVG_SHAPE_SELECTORS from the source, as a tag list. -/
def shapeTags : List String :=
  ["path", "circle", "rect", "ellipse", "line", "polyline", "polygon"]

def isShapeTag (t : String) : Bool := shapeTags.contains t

/-- JavaScript falsiness of a getAttribute result: null or the empty string. -/
def attrFalsy : Option String → Bool
  | none => true
  | some s => s.isEmpty

/-- Predicate tested on each path element by the outline detection:
stroke is non-null, or fill is exactly "none", or fill is falsy. -/
def outlineAttrTest (e : Elem) : Bool :=
  (e.getAttribute "stroke").isSome
    || (e.getAttribute "fill" == some "none")
    || attrFalsy (e.getAttribute "fill")

/-- Outline detection exactly as in the source: an existential over the
elements returned by querySelectorAll with selector "path". -/
def isOutlineIcon (svgElement : Elem) : Bool :=
  (svgElement.descendants.filter (fun e => e.tag == "path")).any outlineAttrTest

/-- Classifier following the spec text instead of the source: the
existential ranges over all seven shape kinds and the fill-absent case
is a missing attribute.  Used to compare spec and code classifiers. -/
def specIsOutline (svgElement : Elem) : Bool :=
  (svgElement.descendants.filter (fun e => isShapeTag e.tag)).any
    (fun e =>
      (e.getAttribute "stroke").isSome
        || (e.getAttribute "fill" == some "none")
        || (e.getAttribute "fill").isNone)

/-- Removes the fill, stroke and stroke-width attributes of one element,
as done for every element of querySelectorAll with selector "*". -/
def stripPresentation (a : List (String × String)) : List (String × String) :=
  removeAttr (removeAttr (removeAttr a "fill") "stroke") "stroke-width"

def DEFAULT_STROKE_WIDTH : String := "1.5"

/-- Attribute rewrite applied to each shape element in the outline branch:
set stroke to the color, fill to none, and default the stroke width when
it is falsy. -/
def outlineShapeAttrs (color : String) (tag : String)
    (a : List (String × String)) : List (String × String) :=
  if isShapeTag tag then
    let a1 := setAttr a "stroke" color
    let a2 := setAttr a1 "fill" "none"
    if attrFalsy (getAttr a2 "stroke-width") then
      setAttr a2 "stroke-width" DEFAULT_STROKE_WIDTH
    else a2
  else a

/-- Attribute rewrite applied to each shape element in the solid branch. -/
def solidShapeAttrs (color : String) (tag : String)
    (a : List (String × String)) : List (String × String) :=
  if isShapeTag tag then setAttr a "fill" color else a

mutual
/-- Applies an attribute rewrite (which may consult the tag) to a tree
node and all nodes below it. -/
def mapAttrsTree (h : String → List (String × String) → List (String × String)) :
    Elem → Elem
  | .node t a cs => .node t (h t a) (mapAttrsList h cs)
/-- Forest version of mapAttrsTree. -/
def mapAttrsList (h : String → List (String × String) → List (String × String)) :
    List Elem → List Elem
  | [] => []
  | c :: cs => mapAttrsTree h c :: mapAttrsList h cs
end

/-- SVGProcessor.applyColorStyling: detect outline style over the original
tree, strip fill, stroke and stroke-width from every descendant (the root
is not part of querySelectorAll results), then restyle the root and the
shape descendants according to the detected style. -/
def applyColorStyling (svgElement : Elem) (color : String) : Elem :=
  let outline := isOutlineIcon svgElement
  let strippedChildren :=
    mapAttrsList (fun _ a => stripPresentation a) svgElement.children
  if outline then
    let rootA :=
      setAttr (setAttr (setAttr svgElement.attrs "stroke" color) "fill" "none")
        "stroke-width" DEFAULT_STROKE_WIDTH
    .node svgElement.tag rootA (mapAttrsList (outlineShapeAttrs color) strippedChildren)
  else
    .node svgElement.tag (setAttr svgElement.attrs "fill" color)
      (mapAttrsList (solidShapeAttrs color) strippedChildren)

/-! ## JavaScript values and coercions

Only the value forms that occur in the configuration claims are modelled:
numbers (integral, as in the YAML samples), strings, null, undefined and
booleans.  ToNumber is partial: none models NaN. -/

inductive JSValue : Type where
  | num (n : Int)
  | str (s : String)
  | nullV
  | undef
  | boolV (b : Bool)
deriving Repr, DecidableEq

/-- The ECMAScript number domain of the model: exact rationals plus the
two infinities.  NaN is represented by Option.none at every use site.
Values are exact: the float64 rounding of ECMAScript numbers (and the
overflow of enormous finite literals to Infinity) is outside the model;
the configuration claims only involve small values where ToNumber is
exact.  The minus-zero distinction is immaterial to the comparisons
modelled here and is not represented. -/
inductive JSNum : Type where
  | finite (q : ℚ)
  | posInf
  | negInf
deriving Repr, DecidableEq

def jsNumNeg : JSNum → JSNum
  | .finite q => .finite (-q)
  | .posInf => .negInf
  | .negInf => .posInf

/-- WhiteSpace and LineTerminator code points trimmed by ToNumber on
strings: TAB LF VT FF CR SP NBSP, the Unicode space separators, the line
and paragraph separators, and ZWNBSP. -/
def isJsWhiteSpace (c : Char) : Bool :=
  let n := c.toNat
  n == 0x9 || n == 0xA || n == 0xB || n == 0xC || n == 0xD || n == 0x20
    || n == 0xA0 || n == 0x1680
    || decide (0x2000 ≤ n ∧ n ≤ 0x200A)
    || n == 0x2028 || n == 0x2029
    || n == 0x202F || n == 0x205F || n == 0x3000 || n == 0xFEFF

def decDigitsToNat (l : List Char) : Nat :=
  l.foldl (fun acc c => acc * 10 + (c.toNat - 48)) 0

/-- Value of one digit in radix up to 16; 999 marks a non-digit. -/
def radixDigitVal (c : Char) : Nat :=
  if c.isDigit then c.toNat - 48
  else if 97 ≤ c.toNat ∧ c.toNat ≤ 102 then c.toNat - 87
  else if 65 ≤ c.toNat ∧ c.toNat ≤ 70 then c.toNat - 55
  else 999

def isRadixDigit (radix : Nat) (c : Char) : Bool :=
  radixDigitVal c < radix

def radixDigitsToNat (radix : Nat) (l : List Char) : Nat :=
  l.foldl (fun acc c => acc * radix + radixDigitVal c) 0

/-- NonDecimalIntegerLiteral body after its 0x, 0o or 0b prefix: one or
more digits of the radix, no sign, no fraction. -/
def parseRadix (radix : Nat) (ds : List Char) : Option JSNum :=
  if ds ≠ [] ∧ ds.all (isRadixDigit radix) then
    some (.finite (radixDigitsToNat radix ds : ℚ))
  else none

/-- ExponentPart of the literal, starting at the e or E marker (an empty
list means the part is absent and the exponent is 0). -/
def parseExponentPart : List Char → Option Int
  | [] => some 0
  | _ :: es =>
    match es with
    | '+' :: ds =>
      if ds ≠ [] ∧ ds.all Char.isDigit then some ((decDigitsToNat ds : Int)) else none
    | '-' :: ds =>
      if ds ≠ [] ∧ ds.all Char.isDigit then some (-(decDigitsToNat ds : Int)) else none
    | ds =>
      if ds ≠ [] ∧ ds.all Char.isDigit then some ((decDigitsToNat ds : Int)) else none

/-- Mantissa of StrUnsignedDecimalLiteral: DecimalDigits with an optional
dot and optional fractional digits, at least one digit in total. -/
def parseDecimalMantissa (mant : List Char) : Option ℚ :=
  let intPart := mant.takeWhile (fun c => c != '.')
  match mant.dropWhile (fun c => c != '.') with
  | [] =>
    if intPart ≠ [] ∧ intPart.all Char.isDigit then some ((decDigitsToNat intPart : ℚ))
    else none
  | _ :: fracPart =>
    if intPart.all Char.isDigit ∧ fracPart.all Char.isDigit
        ∧ (intPart ≠ [] ∨ fracPart ≠ []) then
      some ((decDigitsToNat intPart : ℚ)
        + (decDigitsToNat fracPart : ℚ) / (10 : ℚ) ^ fracPart.length)
    else none

/-- StrUnsignedDecimalLiteral: the literal Infinity, or a decimal
mantissa with an optional exponent part. -/
def parseUnsignedDec (body : List Char) : Option JSNum :=
  if body = "Infinity".toList then some .posInf
  else
    let mant := body.takeWhile (fun c => c != 'e' && c != 'E')
    let rest := body.dropWhile (fun c => c != 'e' && c != 'E')
    match parseDecimalMantissa mant, parseExponentPart rest with
    | some m, some e => some (.finite (m * (10 : ℚ) ^ e))
    | _, _ => none

/-- StrDecimalLiteral: an optional sign before the unsigned literal. -/
def parseStrDecimal (l : List Char) : Option JSNum :=
  match l with
  | '+' :: t => parseUnsignedDec t
  | '-' :: t => (parseUnsignedDec t).map jsNumNeg
  | t => parseUnsignedDec t

/-- ECMAScript ToNumber applied to a string: trim WhiteSpace and
LineTerminators on both ends, an empty remainder is 0, an unsigned 0x,
0o or 0b integer literal parses in its radix, and anything else goes
through the signed decimal grammar; every other string is NaN (none). -/
def jsStringToNumber (s : String) : Option JSNum :=
  let l := ((s.toList.dropWhile isJsWhiteSpace).reverse.dropWhile isJsWhiteSpace).reverse
  match l with
  | [] => some (.finite 0)
  | '0' :: x :: ds =>
    if x == 'x' || x == 'X' then parseRadix 16 ds
    else if x == 'o' || x == 'O' then parseRadix 8 ds
    else if x == 'b' || x == 'B' then parseRadix 2 ds
    else parseStrDecimal l
  | _ => parseStrDecimal l

/-- ECMAScript ToNumber; none models NaN. -/
def toNumber : JSValue → Option JSNum
  | .num n => some (.finite (n : ℚ))
  | .str s => jsStringToNumber s
  | .nullV => some (.finite 0)
  | .undef => none
  | .boolV b => some (.finite (if b then 1 else 0))

/-- Math.min on two numbers. -/
def jsNumMin : JSNum → JSNum → JSNum
  | .finite x, .finite y => .finite (min x y)
  | .negInf, _ => .negInf
  | _, .negInf => .negInf
  | .posInf, y => y
  | x, .posInf => x

/-- The strict greater-than comparison on two numbers. -/
def jsNumGt : JSNum → JSNum → Bool
  | .finite x, .finite y => decide (y < x)
  | _, .posInf => false
  | .posInf, _ => true
  | .negInf, _ => false
  | .finite _, .negInf => true

/-- Math.min of two values after ToNumber; NaN absorbs. -/
def jsMin (a b : JSValue) : Option JSNum :=
  match toNumber a, toNumber b with
  | some x, some y => some (jsNumMin x y)
  | _, _ => none

/-- The relational comparison a greater-than m where m is a number or NaN
(the result of Math.min); any NaN operand makes the comparison false. -/
def jsGreaterNum (a : JSValue) (m : Option JSNum) : Bool :=
  match toNumber a, m with
  | some x, some y => jsNumGt x y
  | _, _ => false

/-- JavaScript falsiness of a configuration value. -/
def jsFalsy : JSValue → Bool
  | .num n => n == 0
  | .str s => s.isEmpty
  | .nullV => true
  | .undef => true
  | .boolV b => !b

def isNum : JSValue → Bool
  | .num _ => true
  | _ => false

def isStr : JSValue → Bool
  | .str _ => true
  | _ => false

/-! ## ConfigManager validation -/

structure WideSettings where
  width : JSValue
  height : JSValue
  iconSize : JSValue
  wideSuffix : JSValue
deriving Repr, DecidableEq

structure Settings where
  size : JSValue
  color : JSValue
  outputDirectory : JSValue
  wide : Option WideSettings
deriving Repr, DecidableEq

structure SourceEntry where
  source : JSValue
  suffix : JSValue
deriving Repr, DecidableEq

/-- The configuration record handed to ConfigManager.validateConfig.
Option.none on icons and sources conflates a missing field with a
non-array value; the source emits one identical error for either. -/
structure Config where
  icons : Option (List JSValue)
  sources : Option (List SourceEntry)
  settings : Option Settings

/-- The test typeof x different from number, or x lesser than 1 (the second
disjunct is only reached on numbers, by short-circuit). -/
def badDim : JSValue → Bool
  | .num n => decide (n < 1)
  | _ => true

/-- The test on settings.size: not a number, below 1 or above 2048. -/
def badSize : JSValue → Bool
  | .num n => decide (n < 1) || decide (n > 2048)
  | _ => true

def validateIcons : Option (List JSValue) → List String
  | none => ["icons: must be a non-empty array"]
  | some l => if l.isEmpty then ["icons: must be a non-empty array"] else []

def validateSingleSource (s : SourceEntry) (index : Nat) : List String :=
  (if jsFalsy s.source || !isStr s.source then
    ["sources[" ++ toString index ++ "].source: must be a non-empty string"] else [])
  ++ (if jsFalsy s.suffix || !isStr s.suffix then
    ["sources[" ++ toString index ++ "].suffix: must be a non-empty string"] else [])

def validateSources : Option (List SourceEntry) → List String
  | none => ["sources: must be a non-empty array"]
  | some l =>
    if l.isEmpty then ["sources: must be a non-empty array"]
    else (l.enum.map (fun p => validateSingleSource p.2 p.1)).flatten

def validateBasicSettings (s : Settings) : List String :=
  (if badSize s.size then
    ["settings.size: must be a number between 1 and 2048"] else [])
  ++ (if jsFalsy s.outputDirectory || !isStr s.outputDirectory then
    ["settings.outputDirectory: must be a non-empty string"] else [])

def validateWideSettings : Option WideSettings → List String
  | none => []
  | some wide =>
    (if badDim wide.width then
      ["settings.wide.width: must be a positive number"] else [])
    ++ (if badDim wide.height then
      ["settings.wide.height: must be a positive number"] else [])
    ++ (if badDim wide.iconSize then
      ["settings.wide.iconSize: must be a positive number"] else [])
    ++ (if jsGreaterNum wide.iconSize (jsMin wide.width wide.height) then
      ["settings.wide.iconSize: must be <= min(width, height)"] else [])

def validateSettings : Option Settings → List String
  | none => ["settings: must be an object"]
  | some s => validateBasicSettings s ++ validateWideSettings s.wide

def validateConfig (c : Config) : List String :=
  validateIcons c.icons ++ validateSources c.sources ++ validateSettings c.settings

/-- The aggregate message thrown by ConfigManager.loadConfig when
validation produced errors. -/
def aggregateMessage (errs : List String) : String :=
  "Configuration validation failed:\n" ++ String.intercalate "\n" errs

/-- The validation gate of ConfigManager.loadConfig (the YAML reading
around it is an external collaborator). -/
def loadConfigCheck (c : Config) : Except String Config :=
  let errs := validateConfig c
  if errs.isEmpty then .ok c else .error (aggregateMessage errs)

/-! ## SVGConverter.generateTasks -/

/-- Removes the first occurrence of the pattern in the character list,
the behaviour of the JavaScript String.replace with a string pattern and
an empty replacement. -/
def removeFirstOccur (pat : List Char) : List Char → List Char
  | [] => []
  | c :: cs =>
    if pat.isPrefixOf (c :: cs) then (c :: cs).drop pat.length
    else c :: removeFirstOccur pat cs

/-- iconName.replace(pat, empty string): removes only the first occurrence. -/
def removeFirstSubstring (s pat : String) : String :=
  String.mk (removeFirstOccur pat.toList s.toList)

/-- Occurrence test used to characterise removeFirstSubstring. -/
def hasSubstrAux (pat : List Char) : List Char → Bool
  | [] => pat.isEmpty
  | c :: cs => pat.isPrefixOf (c :: cs) || hasSubstrAux pat cs

def hasSubstr (s pat : String) : Bool :=
  hasSubstrAux pat.toList s.toList

/-- path.join for one directory and one plain name, the only use in the
planner (no normalisation is involved for such segments). -/
def pathJoin (a b : String) : String := a ++ "/" ++ b

inductive TaskType : Type where
  | square
  | wide
deriving Repr, DecidableEq

inductive TaskOptions : Type where
  | squareOptions (size : Int) (color : JSValue)
  | wideOptions (width height iconSize : Int) (color : JSValue)
deriving Repr, DecidableEq

structure Task where
  type : TaskType
  source : String
  output : String
  iconName : String
  suffix : String
  options : TaskOptions
deriving Repr, DecidableEq

/-- The settings record assembled by SVGConverter.run before task
generation (with the wide defaults already applied). -/
structure TaskSettings where
  size : Int
  color : JSValue
  outputDirectory : String
  wideWidth : Int
  wideHeight : Int
  wideIconSize : Int
  wideSuffix : String
deriving Repr, DecidableEq

/-- Full source location: URL concatenation or path join, depending on the
external URL parser isUrl. -/
def fullSourceFor (isUrl : String → Bool) (source iconName : String) : String :=
  if isUrl source then source ++ iconName else pathJoin source iconName

/-- The square task pushed for one icon and one source. -/
def squareTaskFor (isUrl : String → Bool) (settings : TaskSettings)
    (iconName : String) (sc : String × String) : Task :=
  let baseName := removeFirstSubstring iconName ".svg"
  { type := .square
    source := fullSourceFor isUrl sc.1 iconName
    output := pathJoin settings.outputDirectory (baseName ++ sc.2 ++ ".png")
    iconName := iconName
    suffix := sc.2
    options := .squareOptions settings.size settings.color }

/-- The wide task pushed for one icon and one source. -/
def wideTaskFor (isUrl : String → Bool) (settings : TaskSettings)
    (iconName : String) (sc : String × String) : Task :=
  let baseName := removeFirstSubstring iconName ".svg"
  { type := .wide
    source := fullSourceFor isUrl sc.1 iconName
    output := pathJoin settings.outputDirectory
      (baseName ++ sc.2 ++ settings.wideSuffix ++ ".png")
    iconName := iconName
    suffix := sc.2
    options := .wideOptions settings.wideWidth settings.wideHeight
      settings.wideIconSize settings.color }

/-- SVGConverter.generateTasks: two nested loops over icons and sources,
pushing the square task then the wide task. -/
def generateTasks (isUrl : String → Bool) (icons : List String)
    (sources : List (String × String)) (settings : TaskSettings) : List Task :=
  (icons.map (fun iconName =>
    (sources.map (fun sc =>
      [squareTaskFor isUrl settings iconName sc,
       wideTaskFor isUrl settings iconName sc])).flatten)).flatten

/-! ## Scheduler and statistics -/

/-- Per-task result as produced by convertSquare and convertWide: success
with an optional byte size, or failure. -/
structure TaskResult where
  success : Bool
  size : Option Nat
deriving Repr, DecidableEq

/-- Outcome of Promise.allSettled for one task: a fulfilled value or a
rejection (an unexpected fault that escaped the per-task catch). -/
inductive Settled : Type where
  | fulfilled (r : TaskResult)
  | rejected
deriving Repr, DecidableEq

structure RunStats where
  total : Nat
  successful : Nat
  failed : Nat
  totalSize : Nat
deriving Repr, DecidableEq

/-- The statistics record as initialised by the SVGConverter constructor
and run (total is set to the task count before execution). -/
def initStats (taskCount : Nat) : RunStats :=
  { total := taskCount, successful := 0, failed := 0, totalSize := 0 }

/-- SVGConverter.updateStats. -/
def updateStats (stats : RunStats) (result : TaskResult) : RunStats :=
  if result.success then
    { stats with
      successful := stats.successful + 1
      totalSize := stats.totalSize + result.size.getD 0 }
  else
    { stats with failed := stats.failed + 1 }

/-- Recording one settled outcome in runParallel: fulfilled values go
through updateStats, rejections increment the failure counter. -/
def recordSettled (stats : RunStats) : Settled → RunStats
  | .fulfilled r => updateStats stats r
  | .rejected => { stats with failed := stats.failed + 1 }

/-- The batch partition of runParallel: slices of BATCH_SIZE = 4 taken
in order until the list is exhausted. -/
def toBatches : List α → List (List α)
  | [] => []
  | c :: cs => (c :: cs.take 3) :: toBatches (cs.drop 3)
termination_by l => l.length
decreasing_by simp [List.length_drop]; omega

/-- Statistics effect of runSequential over the per-task results. -/
def runSequentialStats (stats : RunStats) (results : List TaskResult) : RunStats :=
  results.foldl updateStats stats

/-- Statistics effect of runParallel: fold over the batches, and within a
batch over the settled outcomes. -/
def runParallelStats (stats : RunStats) (outcomes : List Settled) : RunStats :=
  (toBatches outcomes).foldl (fun st batch => batch.foldl recordSettled st) stats

/-! ## SVGProcessor.fetchContent -/

/-- Cache and retrieval counter threaded through fetchContent.  The
counter counts underlying retrievals (network fetch or file read);
it is not part of the program state, only an observation of its I/O. -/
structure FetchState where
  cache : List (String × String)
  retrievals : Nat
deriving Repr, DecidableEq

def cacheLookup (cache : List (String × String)) (s : String) : Option String :=
  (cache.find? (fun p => p.1 == s)).map (fun p => p.2)

/-- SVGProcessor.fetchContent.  The world argument abstracts the two
retrieval channels (fetch for URLs, readFile for paths): it returns the
text or the failure message of the underlying I/O.  On failure the error
is rewrapped as in the source and nothing is cached. -/
def fetchContent (world : String → Except String String) (source : String)
    (useCache : Bool) (st : FetchState) : Except String String × FetchState :=
  match useCache, cacheLookup st.cache source with
  | true, some content => (.ok content, st)
  | _, _ =>
    match world source with
    | .ok content =>
      (.ok content,
        { cache := if useCache then (source, content) :: st.cache else st.cache
          retrievals := st.retrievals + 1 })
    | .error e =>
      (.error ("Failed to fetch SVG from " ++ source ++ ": " ++ e),
        { st with retrievals := st.retrievals + 1 })

/-! ## PNGConverter.convertWide centering -/

/-- Math.round: floor of the argument plus one half. -/
def jsRound (q : ℚ) : ℤ := ⌊q + 1 / 2⌋

/-- The centering computation of convertWide: the composite offsets of the
icon buffer inside the wide canvas. -/
def convertWideOffsets (width height iconSize : ℤ) : ℤ × ℤ :=
  (jsRound (((width : ℚ) - (iconSize : ℚ)) / 2),
   jsRound (((height : ℚ) - (iconSize : ℚ)) / 2))

/-! ## Configuration decoding and the planning pipeline -/

/-- String content of a validated string value (validated configurations
guarantee the string case). -/
def asString : JSValue → String
  | .str s => s
  | _ => ""

/-- Models the JavaScript default idiom value || d for the numeric value
forms occurring in validated configurations. -/
def numOrDefault (v : Option JSValue) (d : Int) : Int :=
  match v with
  | some (.num n) => if n == 0 then d else n
  | _ => d

/-- Models the JavaScript default idiom value || d for the string value
forms occurring in validated configurations. -/
def strOrDefault (v : Option JSValue) (d : String) : String :=
  match v with
  | some (.str s) => if s.isEmpty then d else s
  | _ => d

def decodeIcons : Option (List JSValue) → List String
  | some l => l.map asString
  | none => []

def decodeSources : Option (List SourceEntry) → List (String × String)
  | some l => l.map (fun s => (asString s.source, asString s.suffix))
  | none => []

/-- Integer content of a validated numeric value (validated settings
guarantee the num case; run() passes the value through unchanged). -/
def numIntOf : JSValue → Int
  | .num n => n
  | _ => 0

/-- The dimension extraction performed by SVGConverter.run before task
generation, defaults included. -/
def decodeSettings : Option Settings → TaskSettings
  | some st =>
    { size := numIntOf st.size
      color := st.color
      outputDirectory := asString st.outputDirectory
      wideWidth := numOrDefault (st.wide.map (fun w => w.width)) 320
      wideHeight := numOrDefault (st.wide.map (fun w => w.height)) 180
      wideIconSize := numOrDefault (st.wide.map (fun w => w.iconSize))
        (numIntOf st.size)
      wideSuffix := strOrDefault (st.wide.map (fun w => w.wideSuffix)) "_wide" }
  | none =>
    { size := 0, color := .undef, outputDirectory := ""
      wideWidth := 320, wideHeight := 180, wideIconSize := 0
      wideSuffix := "_wide" }

/-- The pipeline from configuration to planned tasks: the validation gate
of loadConfig runs first, and only a configuration it accepts reaches
generateTasks. -/
def planRun (isUrl : String → Bool) (c : Config) : Except String (List Task) :=
  match loadConfigCheck c with
  | .error e => .error e
  | .ok c2 =>
    .ok (generateTasks isUrl (decodeIcons c2.icons) (decodeSources c2.sources)
      (decodeSettings c2.settings))

/-! ## Statement-side definitions

Definitions used to state properties: views of the restyled tree, sums of
output sizes, batch length profiles. -/

/-- View of one element: its tag and its three presentation attributes
(fill, stroke, stroke-width). -/
def presentationOf (e : Elem) : String × Option String × Option String × Option String :=
  (e.tag, e.getAttribute "fill", e.getAttribute "stroke",
    e.getAttribute "stroke-width")

/-- Presentation prescribed for a descendant with the given tag after
restyling: shapes receive the outline or solid styling, every other
descendant is left stripped. -/
def styledPresentation (outline : Bool) (color : String) (tag : String) :
    String × Option String × Option String × Option String :=
  if isShapeTag tag then
    if outline then (tag, some "none", some color, some DEFAULT_STROKE_WIDTH)
    else (tag, some color, none, none)
  else (tag, none, none, none)

/-- Total byte size of the successful results. -/
def sizeSum (results : List TaskResult) : Nat :=
  (results.map (fun r => if r.success then r.size.getD 0 else 0)).sum

/-- Total byte size of the successfully fulfilled outcomes. -/
def settledSizeSum (outcomes : List Settled) : Nat :=
  (outcomes.map (fun o =>
    match o with
    | .fulfilled r => if r.success then r.size.getD 0 else 0
    | .rejected => 0)).sum

/-- Expected batch length profile for a task count: groups of four and a
smaller remainder. -/
def batchLens : Nat → List Nat
  | 0 => []
  | n + 1 => min (n + 1) 4 :: batchLens (n + 1 - 4)

/-! ## Concrete instances used by counterexamples and witnesses -/

/-- Icon whose only shape is a circle styled as an outline. -/
def circleDoc : Elem :=
  .node "svg" [] [.node "circle" [("fill", "none"), ("stroke", "#000")] []]

/-- Icon whose only shape is a path styled as an outline. -/
def pathOutlineDoc : Elem :=
  .node "svg" [] [.node "path" [("fill", "none"), ("stroke", "#000")] []]

/-- Icon whose only shape is a filled path without stroke. -/
def pathSolidDoc : Elem :=
  .node "svg" [] [.node "path" [("fill", "#000")] []]

/-- Solid icon whose root carries a pre-existing stroke attribute. -/
def rootStrokeDoc : Elem :=
  .node "svg" [("stroke", "#f00")] [.node "path" [("fill", "#000")] []]

/-- Valid configuration except that the wide icon size exceeds the
smaller wide dimension. -/
def cfgWideIconTooBig : Config where
  icons := some [.str "a.svg"]
  sources := some [{ source := .str "./icons", suffix := .str "_s" }]
  settings := some
    { size := .num 80
      color := .str "#fff"
      outputDirectory := .str "dist"
      wide := some
        { width := .num 180
          height := .num 300
          iconSize := .num 200
          wideSuffix := .str "_wide" } }

/-- Valid configuration except that the size is out of range. -/
def cfgSizeTooBig : Config where
  icons := some [.str "a.svg"]
  sources := some [{ source := .str "./icons", suffix := .str "_s" }]
  settings := some
    { size := .num 3000
      color := .str "#fff"
      outputDirectory := .str "dist"
      wide := none }

/-- Configuration violating both the size range and the wide icon size
bound, to exercise aggregation. -/
def cfgBothBad : Config where
  icons := some [.str "a.svg"]
  sources := some [{ source := .str "./icons", suffix := .str "_s" }]
  settings := some
    { size := .num 3000
      color := .str "#fff"
      outputDirectory := .str "dist"
      wide := some
        { width := .num 180
          height := .num 300
          iconSize := .num 200
          wideSuffix := .str "_wide" } }

/-- Wide settings whose width is null: not a number for typeof, yet
coerced to 0 by Math.min. -/
def wideNullWidth : WideSettings where
  width := .nullV
  height := .num 180
  iconSize := .num 200
  wideSuffix := .str "_wide"

/-- Wide settings whose width is undefined: coerced to NaN by Math.min. -/
def wideUndefWidth : WideSettings where
  width := .undef
  height := .num 180
  iconSize := .num 200
  wideSuffix := .str "_wide"

/-- Wide settings whose width is the quoted numeric string 12.5: not a
number for typeof, yet coerced to 12.5 by Math.min. -/
def wideStrWidth : WideSettings where
  width := .str "12.5"
  height := .num 180
  iconSize := .num 200
  wideSuffix := .str "_wide"

/-- Retrieval oracle whose every retrieval fails. -/
def failWorld : String → Except String String :=
  fun _ => .error "File not found: ./icons/a.svg"

/-- Retrieval oracle whose every retrieval succeeds. -/
def okWorld : String → Except String String :=
  fun _ => .ok "svg text"

/-- A concrete planner settings record. -/
def exSettings : TaskSettings where
  size := 80
  color := .str "#fff"
  outputDirectory := "out"
  wideWidth := 320
  wideHeight := 180
  wideIconSize := 160
  wideSuffix := "_w"

/-- A concrete task, used to build concrete task lists. -/
def exTask : Task :=
  squareTaskFor (fun _ => false) exSettings "a.svg" ("./icons", "_s")

/-! ## Helper lemmas: attribute lists -/

theorem getAttr_cons (p : String × String) (rest : List (String × String))
    (k : String) :
    getAttr (p :: rest) k = if p.1 == k then some p.2 else getAttr rest k := by
  cases h : p.1 == k <;> simp [getAttr, List.find?_cons, h]

theorem getAttr_setAttr_self (a : List (String × String)) (k v : String) :
    getAttr (setAttr a k v) k = some v := by
  induction a with
  | nil => simp [setAttr, getAttr_cons]
  | cons p rest ih =>
    by_cases h : p.1 = k
    · simp [setAttr, h, getAttr_cons]
    · have hb : (p.1 == k) = false := by simp [h]
      simp [setAttr, hb, getAttr_cons, ih]

theorem getAttr_setAttr_ne (a : List (String × String)) (k v k2 : String)
    (h : k2 ≠ k) : getAttr (setAttr a k v) k2 = getAttr a k2 := by
  induction a with
  | nil => simp [setAttr, getAttr_cons, getAttr, Ne.symm h]
  | cons p rest ih =>
    by_cases hp : p.1 = k
    · have : (k == k2) = false := by simp [Ne.symm h]
      simp [setAttr, hp, getAttr_cons, this]
    · have hb : (p.1 == k) = false := by simp [hp]
      simp [setAttr, hb, getAttr_cons, ih]

theorem getAttr_removeAttr_self (a : List (String × String)) (k : String) :
    getAttr (removeAttr a k) k = none := by
  induction a with
  | nil => simp [removeAttr, getAttr]
  | cons p rest ih =>
    by_cases hp : p.1 = k
    · simp [removeAttr, List.filter, hp, bne_self_eq_false] at ih ⊢
      simpa [removeAttr] using ih
    · have hb : (p.1 != k) = true := by simp [bne, hp]
      simp [removeAttr, List.filter, hb, getAttr_cons, hp] at ih ⊢
      simpa [removeAttr, hp] using ih

theorem getAttr_removeAttr_ne (a : List (String × String)) (k k2 : String)
    (h : k2 ≠ k) : getAttr (removeAttr a k) k2 = getAttr a k2 := by
  induction a with
  | nil => simp [removeAttr, getAttr]
  | cons p rest ih =>
    by_cases hp : p.1 = k
    · have : (p.1 == k2) = false := by simp [hp, Ne.symm h]
      simp [removeAttr, List.filter, hp, bne_self_eq_false, getAttr_cons, this,
        Ne.symm h] at ih ⊢
      simpa [removeAttr] using ih
    · have hb : (p.1 != k) = true := by simp [bne, hp]
      cases hq : p.1 == k2
      · simp [removeAttr, List.filter, hb, getAttr_cons, hq] at ih ⊢
        simpa [removeAttr] using ih
      · simp [removeAttr, List.filter, hb, getAttr_cons, hq]

theorem getAttr_strip_fill (a : List (String × String)) :
    getAttr (stripPresentation a) "fill" = none := by
  unfold stripPresentation
  rw [getAttr_removeAttr_ne _ _ _ (by decide), getAttr_removeAttr_ne _ _ _ (by decide),
    getAttr_removeAttr_self]

theorem getAttr_strip_stroke (a : List (String × String)) :
    getAttr (stripPresentation a) "stroke" = none := by
  unfold stripPresentation
  rw [getAttr_removeAttr_ne _ _ _ (by decide), getAttr_removeAttr_self]

theorem getAttr_strip_strokeWidth (a : List (String × String)) :
    getAttr (stripPresentation a) "stroke-width" = none := by
  unfold stripPresentation
  rw [getAttr_removeAttr_self]

/-! ## Helper lemmas: tree rewriting -/

theorem mapAttrsTree_tag (h : String → List (String × String) → List (String × String))
    (e : Elem) : (mapAttrsTree h e).tag = e.tag := by
  cases e
  rfl

theorem mapAttrsTree_attrs (h : String → List (String × String) → List (String × String))
    (e : Elem) : (mapAttrsTree h e).attrs = h e.tag e.attrs := by
  cases e
  rfl

mutual
theorem descendants_mapAttrsTree
    (h : String → List (String × String) → List (String × String)) :
    ∀ e : Elem, (mapAttrsTree h e).descendants = e.descendants.map (mapAttrsTree h)
  | .node t a cs => by
    simp only [mapAttrsTree, Elem.descendants]
    exact descList_mapAttrsList h cs
theorem descList_mapAttrsList
    (h : String → List (String × String) → List (String × String)) :
    ∀ cs : List Elem, descList (mapAttrsList h cs) = (descList cs).map (mapAttrsTree h)
  | [] => rfl
  | c :: cs => by
    simp only [mapAttrsList, descList, List.map_cons, List.map_append]
    rw [descendants_mapAttrsTree h c, descList_mapAttrsList h cs]
end

/-- Presentation of a shape element after the outline rewrite of a
stripped attribute list. -/
theorem outlineShapeAttrs_strip (color tag : String) (a : List (String × String))
    (hshape : isShapeTag tag = true) :
    getAttr (outlineShapeAttrs color tag (stripPresentation a)) "fill" = some "none"
    ∧ getAttr (outlineShapeAttrs color tag (stripPresentation a)) "stroke" = some color
    ∧ getAttr (outlineShapeAttrs color tag (stripPresentation a)) "stroke-width"
        = some DEFAULT_STROKE_WIDTH := by
  unfold outlineShapeAttrs
  rw [hshape]
  simp only [if_true]
  have hsw : getAttr (setAttr (setAttr (stripPresentation a) "stroke" color)
      "fill" "none") "stroke-width" = none := by
    rw [getAttr_setAttr_ne _ _ _ _ (by decide), getAttr_setAttr_ne _ _ _ _ (by decide),
      getAttr_strip_strokeWidth]
  rw [hsw]
  simp only [attrFalsy, if_true]
  refine ⟨?_, ?_, ?_⟩
  · rw [getAttr_setAttr_ne _ _ _ _ (by decide), getAttr_setAttr_self]
  · rw [getAttr_setAttr_ne _ _ _ _ (by decide), getAttr_setAttr_ne _ _ _ _ (by decide),
      getAttr_setAttr_self]
  · rw [getAttr_setAttr_self]

/-- Presentation of a shape element after the solid rewrite of a stripped
attribute list. -/
theorem solidShapeAttrs_strip (color tag : String) (a : List (String × String))
    (hshape : isShapeTag tag = true) :
    getAttr (solidShapeAttrs color tag (stripPresentation a)) "fill" = some color
    ∧ getAttr (solidShapeAttrs color tag (stripPresentation a)) "stroke" = none
    ∧ getAttr (solidShapeAttrs color tag (stripPresentation a)) "stroke-width" = none := by
  unfold solidShapeAttrs
  rw [hshape]
  simp only [if_true]
  refine ⟨getAttr_setAttr_self _ _ _, ?_, ?_⟩
  · rw [getAttr_setAttr_ne _ _ _ _ (by decide), getAttr_strip_stroke]
  · rw [getAttr_setAttr_ne _ _ _ _ (by decide), getAttr_strip_strokeWidth]

/-- Pointwise presentation of a descendant after stripping then outline
rewriting. -/
theorem presentation_outline_pointwise (color : String) (d : Elem) :
    presentationOf (mapAttrsTree (outlineShapeAttrs color)
        (mapAttrsTree (fun _ a => stripPresentation a) d))
      = styledPresentation true color d.tag := by
  unfold presentationOf styledPresentation Elem.getAttribute
  rw [mapAttrsTree_tag, mapAttrsTree_attrs, mapAttrsTree_tag, mapAttrsTree_attrs]
  by_cases hshape : isShapeTag d.tag = true
  · obtain ⟨h1, h2, h3⟩ := outlineShapeAttrs_strip color d.tag d.attrs hshape
    simp [hshape, h1, h2, h3]
  · have hb : isShapeTag d.tag = false := by
      cases h : isShapeTag d.tag
      · rfl
      · exact absurd h hshape
    simp [hb, outlineShapeAttrs, getAttr_strip_fill, getAttr_strip_stroke,
      getAttr_strip_strokeWidth]

/-- Pointwise presentation of a descendant after stripping then solid
rewriting. -/
theorem presentation_solid_pointwise (color : String) (d : Elem) :
    presentationOf (mapAttrsTree (solidShapeAttrs color)
        (mapAttrsTree (fun _ a => stripPresentation a) d))
      = styledPresentation false color d.tag := by
  unfold presentationOf styledPresentation Elem.getAttribute
  rw [mapAttrsTree_tag, mapAttrsTree_attrs, mapAttrsTree_tag, mapAttrsTree_attrs]
  by_cases hshape : isShapeTag d.tag = true
  · obtain ⟨h1, h2, h3⟩ := solidShapeAttrs_strip color d.tag d.attrs hshape
    simp [hshape, h1, h2, h3]
  · have hb : isShapeTag d.tag = false := by
      cases h : isShapeTag d.tag
      · rfl
      · exact absurd h hshape
    simp [hb, solidShapeAttrs, getAttr_strip_fill, getAttr_strip_stroke,
      getAttr_strip_strokeWidth]

/-- Descendant presentations of the restyled tree, in document order. -/
theorem applyColorStyling_descendants (root : Elem) (color : String) :
    (applyColorStyling root color).descendants.map presentationOf
      = root.descendants.map
          (fun d => styledPresentation (isOutlineIcon root) color d.tag) := by
  cases root with
  | node t a cs =>
    unfold applyColorStyling
    cases hout : isOutlineIcon (Elem.node t a cs)
    · simp only [Bool.false_eq_true, if_false]
      show (descList (mapAttrsList (solidShapeAttrs color)
          (mapAttrsList (fun _ x => stripPresentation x) (Elem.children (Elem.node t a cs))))).map presentationOf = _
      rw [descList_mapAttrsList, descList_mapAttrsList]
      show ((descList cs).map _ |>.map _ |>.map _) = _
      rw [List.map_map, List.map_map]
      refine List.map_congr_left (fun d _ => ?_)
      show presentationOf (mapAttrsTree (solidShapeAttrs color)
        (mapAttrsTree (fun _ x => stripPresentation x) d)) = _
      exact presentation_solid_pointwise color d
    · simp only [if_true]
      show (descList (mapAttrsList (outlineShapeAttrs color)
          (mapAttrsList (fun _ x => stripPresentation x) (Elem.children (Elem.node t a cs))))).map presentationOf = _
      rw [descList_mapAttrsList, descList_mapAttrsList]
      show ((descList cs).map _ |>.map _ |>.map _) = _
      rw [List.map_map, List.map_map]
      refine List.map_congr_left (fun d _ => ?_)
      show presentationOf (mapAttrsTree (outlineShapeAttrs color)
        (mapAttrsTree (fun _ x => stripPresentation x) d)) = _
      exact presentation_outline_pointwise color d

/-- Root presentation of the restyled tree. -/
theorem applyColorStyling_root (root : Elem) (color : String) :
    ((applyColorStyling root color).getAttribute "fill",
     (applyColorStyling root color).getAttribute "stroke",
     (applyColorStyling root color).getAttribute "stroke-width")
      = if isOutlineIcon root then
          (some "none", some color, some DEFAULT_STROKE_WIDTH)
        else
          (some color, root.getAttribute "stroke", root.getAttribute "stroke-width") := by
  cases root with
  | node t a cs =>
    unfold applyColorStyling
    cases hout : isOutlineIcon (Elem.node t a cs)
    · simp only [Bool.false_eq_true, if_false]
      unfold Elem.getAttribute
      simp only [Elem.attrs]
      rw [getAttr_setAttr_self _ "fill" _,
        getAttr_setAttr_ne _ "fill" _ "stroke" (by decide),
        getAttr_setAttr_ne _ "fill" _ "stroke-width" (by decide)]
    · simp only [if_true]
      unfold Elem.getAttribute
      simp only [Elem.attrs]
      rw [getAttr_setAttr_ne _ "stroke-width" _ "fill" (by decide),
        getAttr_setAttr_self _ "fill" _,
        getAttr_setAttr_ne _ "stroke-width" _ "stroke" (by decide),
        getAttr_setAttr_ne _ "fill" _ "stroke" (by decide),
        getAttr_setAttr_self _ "stroke" _,
        getAttr_setAttr_self _ "stroke-width" _]

/-! ## Helper lemmas: batching and statistics -/

theorem toBatches_flatten {α : Type} (l : List α) : (toBatches l).flatten = l := by
  induction l using toBatches.induct with
  | case1 => simp [toBatches]
  | case2 c cs ih =>
    rw [toBatches]
    simp only [List.flatten_cons, ih]
    rw [List.cons_append, List.take_append_drop]

theorem toBatches_sizes {α : Type} (l : List α) :
    (toBatches l).all (fun b => decide (0 < b.length) && decide (b.length ≤ 4)) = true := by
  induction l using toBatches.induct with
  | case1 => simp [toBatches]
  | case2 c cs ih =>
    rw [toBatches]
    simp only [List.all_cons, ih, Bool.and_true]
    simp only [List.length_cons, List.length_take]
    simp only [Bool.and_eq_true, decide_eq_true_eq]
    omega

theorem toBatches_lengths {α : Type} (l : List α) :
    (toBatches l).map List.length = batchLens l.length := by
  induction l using toBatches.induct with
  | case1 => simp [toBatches, batchLens]
  | case2 c cs ih =>
    rw [toBatches]
    simp only [List.map_cons, ih, List.length_cons, List.length_take, List.length_drop]
    rw [batchLens]
    have h1 : min 3 cs.length + 1 = min (cs.length + 1) 4 := by omega
    have h2 : cs.length - 3 = cs.length + 1 - 4 := by omega
    rw [h1, h2]

theorem foldl_batches {α β : Type} (f : β → α → β) (s : β) (l : List α) :
    (toBatches l).foldl (fun st batch => batch.foldl f st) s = l.foldl f s := by
  conv_rhs => rw [← toBatches_flatten l]
  rw [List.foldl_flatten]

theorem updateStats_fields (st : RunStats) (r : TaskResult) :
    (updateStats st r).successful = st.successful + (if r.success then 1 else 0)
    ∧ (updateStats st r).failed = st.failed + (if r.success then 0 else 1)
    ∧ (updateStats st r).totalSize
        = st.totalSize + (if r.success then r.size.getD 0 else 0)
    ∧ (updateStats st r).total = st.total := by
  unfold updateStats
  cases r.success <;> simp

theorem recordSettled_fields (st : RunStats) (o : Settled) :
    (recordSettled st o).successful + (recordSettled st o).failed
      = st.successful + st.failed + 1
    ∧ (recordSettled st o).totalSize
        = st.totalSize + settledSizeSum [o]
    ∧ (recordSettled st o).total = st.total := by
  cases o with
  | fulfilled r =>
    obtain ⟨h1, h2, h3, h4⟩ := updateStats_fields st r
    unfold recordSettled
    refine ⟨?_, ?_, h4⟩
    · rw [h1, h2]
      cases r.success <;> simp <;> omega
    · rw [h3]
      cases hr : r.success <;> simp [settledSizeSum, hr]
  | rejected =>
    refine ⟨?_, ?_, ?_⟩ <;> simp [recordSettled, settledSizeSum]
    all_goals omega

theorem sizeSum_cons (r : TaskResult) (rs : List TaskResult) :
    sizeSum (r :: rs) = (if r.success then r.size.getD 0 else 0) + sizeSum rs := by
  simp [sizeSum]

theorem settledSizeSum_cons (o : Settled) (os : List Settled) :
    settledSizeSum (o :: os) = settledSizeSum [o] + settledSizeSum os := by
  cases o <;> simp [settledSizeSum]

theorem foldl_updateStats_counts (results : List TaskResult) :
    ∀ st : RunStats,
      (results.foldl updateStats st).successful + (results.foldl updateStats st).failed
        = st.successful + st.failed + results.length
      ∧ (results.foldl updateStats st).totalSize = st.totalSize + sizeSum results
      ∧ (results.foldl updateStats st).total = st.total := by
  induction results with
  | nil => intro st; simp [sizeSum]
  | cons r rs ih =>
    intro st
    obtain ⟨h1, h2, h3⟩ := ih (updateStats st r)
    obtain ⟨u1, u2, u3, u4⟩ := updateStats_fields st r
    simp only [List.foldl_cons, List.length_cons]
    refine ⟨?_, ?_, ?_⟩
    · rw [h1, u1, u2]
      cases r.success <;> simp <;> omega
    · rw [h2, u3, sizeSum_cons]
      omega
    · rw [h3, u4]

theorem foldl_recordSettled_counts (outcomes : List Settled) :
    ∀ st : RunStats,
      (outcomes.foldl recordSettled st).successful + (outcomes.foldl recordSettled st).failed
        = st.successful + st.failed + outcomes.length
      ∧ (outcomes.foldl recordSettled st).totalSize = st.totalSize + settledSizeSum outcomes
      ∧ (outcomes.foldl recordSettled st).total = st.total := by
  induction outcomes with
  | nil => intro st; simp [settledSizeSum]
  | cons o os ih =>
    intro st
    obtain ⟨h1, h2, h3⟩ := ih (recordSettled st o)
    obtain ⟨u1, u2, u3⟩ := recordSettled_fields st o
    simp only [List.foldl_cons, List.length_cons]
    refine ⟨?_, ?_, ?_⟩
    · rw [h1, u1]
      omega
    · have hc : settledSizeSum (o :: os) = settledSizeSum [o] + settledSizeSum os :=
        settledSizeSum_cons o os
      rw [h2, u2, hc]
      omega
    · rw [h3, u3]

/-! ## Helper lemmas: task planning -/

theorem flatten_map_getElem {α β : Type} (g : α → List β) (k : Nat)
    (hk : ∀ a, (g a).length = k) :
    ∀ (l : List α) (i r : Nat) (hi : i < l.length), r < k →
      ((l.map g).flatten)[k * i + r]? = (g (l.get ⟨i, hi⟩))[r]? := by
  intro l
  induction l with
  | nil => intro i r hi _; simp at hi
  | cons a l ih =>
    intro i r hi hr
    cases i with
    | zero =>
      simp only [List.map_cons, List.flatten_cons, Nat.mul_zero, Nat.zero_add]
      rw [List.getElem?_append_left (by rw [hk a]; exact hr)]
      rfl
    | succ i =>
      simp only [List.map_cons, List.flatten_cons]
      have hlen : (g a).length ≤ k * (i + 1) + r := by
        rw [hk a]
        have : k * (i + 1) = k * i + k := by ring
        omega
      rw [List.getElem?_append_right hlen]
      have hidx : k * (i + 1) + r - (g a).length = k * i + r := by
        rw [hk a]
        have : k * (i + 1) = k * i + k := by ring
        omega
      rw [hidx]
      have hi2 : i < l.length := by simpa using hi
      rw [ih i r hi2 hr]
      rfl

theorem tasksFor_block_length (isUrl : String → Bool) (settings : TaskSettings)
    (iconName : String) (sources : List (String × String)) :
    ((sources.map (fun sc =>
      [squareTaskFor isUrl settings iconName sc,
       wideTaskFor isUrl settings iconName sc])).flatten).length
      = 2 * sources.length := by
  rw [List.length_flatten, List.map_map]
  induction sources with
  | nil => simp
  | cons s ss ihs =>
    simp only [List.map_cons, List.sum_cons, ihs, List.length_cons]
    have : (List.length ∘ fun sc =>
        [squareTaskFor isUrl settings iconName sc,
         wideTaskFor isUrl settings iconName sc]) s = 2 := rfl
    rw [this]
    ring

theorem generateTasks_length (isUrl : String → Bool) (icons : List String)
    (sources : List (String × String)) (settings : TaskSettings) :
    (generateTasks isUrl icons sources settings).length
      = 2 * icons.length * sources.length := by
  unfold generateTasks
  rw [List.length_flatten, List.map_map]
  induction icons with
  | nil => simp
  | cons a l ih =>
    simp only [List.map_cons, List.sum_cons, ih, Function.comp, List.length_cons]
    rw [show ((fun iconName => (List.map (fun sc =>
      [squareTaskFor isUrl settings iconName sc,
       wideTaskFor isUrl settings iconName sc]) sources).flatten) a).length
        = 2 * sources.length from tasksFor_block_length isUrl settings a sources]
    ring

theorem generateTasks_getElem (isUrl : String → Bool) (icons : List String)
    (sources : List (String × String)) (settings : TaskSettings)
    (i j : Nat) (hi : i < icons.length) (hj : j < sources.length) :
    (generateTasks isUrl icons sources settings)[2 * (i * sources.length + j)]?
        = some (squareTaskFor isUrl settings (icons.get ⟨i, hi⟩) (sources.get ⟨j, hj⟩))
    ∧ (generateTasks isUrl icons sources settings)[2 * (i * sources.length + j) + 1]?
        = some (wideTaskFor isUrl settings (icons.get ⟨i, hi⟩) (sources.get ⟨j, hj⟩)) := by
  unfold generateTasks
  have houter : ∀ iconName : String,
      ((fun iconName => (sources.map (fun sc =>
        [squareTaskFor isUrl settings iconName sc,
         wideTaskFor isUrl settings iconName sc])).flatten) iconName).length
      = 2 * sources.length :=
    fun iconName => tasksFor_block_length isUrl settings iconName sources
  constructor
  · have harith : 2 * (i * sources.length + j) = 2 * sources.length * i + (2 * j) := by ring
    rw [harith,
      flatten_map_getElem _ (2 * sources.length) houter icons i (2 * j) hi (by omega)]
    have hinner : ∀ sc : String × String,
        ((fun sc => [squareTaskFor isUrl settings (icons.get ⟨i, hi⟩) sc,
          wideTaskFor isUrl settings (icons.get ⟨i, hi⟩) sc]) sc).length = 2 := by
      intro sc; rfl
    have h2j : 2 * j = 2 * j + 0 := by omega
    rw [h2j, flatten_map_getElem _ 2 hinner sources j 0 hj (by omega)]
    rfl
  · have harith : 2 * (i * sources.length + j) + 1 = 2 * sources.length * i + (2 * j + 1) := by
      ring
    rw [harith,
      flatten_map_getElem _ (2 * sources.length) houter icons i (2 * j + 1) hi (by omega)]
    have hinner : ∀ sc : String × String,
        ((fun sc => [squareTaskFor isUrl settings (icons.get ⟨i, hi⟩) sc,
          wideTaskFor isUrl settings (icons.get ⟨i, hi⟩) sc]) sc).length = 2 := by
      intro sc; rfl
    rw [flatten_map_getElem _ 2 hinner sources j 1 hj (by omega)]
    rfl

/-! ## Helper lemmas: fetch cache -/

theorem cacheLookup_cons_self (s content : String) (rest : List (String × String)) :
    cacheLookup ((s, content) :: rest) s = some content := by
  simp [cacheLookup, List.find?_cons]

/-- A successful cached fetch leaves the requested text in the cache. -/
theorem fetchContent_ok_cached (world : String → Except String String)
    (source : String) (st : FetchState) (t : String)
    (h : (fetchContent world source true st).1 = .ok t) :
    cacheLookup (fetchContent world source true st).2.cache source = some t := by
  unfold fetchContent at h ⊢
  cases hc : cacheLookup st.cache source with
  | some c =>
    simp only [hc] at h ⊢
    cases h
    rfl
  | none =>
    simp only [hc] at h ⊢
    cases hw : world source with
    | ok content =>
      simp only [hw] at h ⊢
      cases h
      simp only [if_true]
      exact cacheLookup_cons_self source t st.cache
    | error e =>
      simp only [hw] at h
      cases h

/-! ## Helper lemmas: first-occurrence replacement -/

theorem removeFirstOccur_of_not_has (pat : List Char) (l : List Char)
    (h : hasSubstrAux pat l = false) : removeFirstOccur pat l = l := by
  induction l with
  | nil => rfl
  | cons c cs ih =>
    unfold hasSubstrAux at h
    rw [Bool.or_eq_false_iff] at h
    unfold removeFirstOccur
    rw [if_neg (by rw [h.1]; exact Bool.false_ne_true), ih h.2]

/-! ## Helper lemmas: rounding -/

theorem jsRound_eq (q : ℚ) (n : ℤ) (h1 : (n : ℚ) ≤ q + 1 / 2)
    (h2 : q + 1 / 2 < (n : ℚ) + 1) : jsRound q = n := by
  unfold jsRound
  exact Int.floor_eq_iff.mpr ⟨h1, h2⟩

theorem jsRound_half_bounds (a : ℤ) :
    0 ≤ 2 * jsRound ((a : ℚ) / 2) - a ∧ 2 * jsRound ((a : ℚ) / 2) - a ≤ 1 := by
  set n := jsRound ((a : ℚ) / 2) with hn
  have h1 : ((n : ℚ)) ≤ (a : ℚ) / 2 + 1 / 2 := Int.floor_le _
  have h2 : (a : ℚ) / 2 + 1 / 2 < (n : ℚ) + 1 := Int.lt_floor_add_one _
  constructor
  · have : (a : ℚ) < 2 * (n : ℚ) + 1 := by linarith
    have hz : a < 2 * n + 1 := by exact_mod_cast this
    omega
  · have : 2 * (n : ℚ) ≤ (a : ℚ) + 1 := by linarith
    have hz : 2 * n ≤ a + 1 := by exact_mod_cast this
    omega

/-! ## Helper lemmas: validation with coerced values -/

theorem jsMin_nan_left (a b : JSValue) (h : toNumber a = none) :
    jsMin a b = none := by
  unfold jsMin
  rw [h]

theorem jsMin_nan_right (a b : JSValue) (h : toNumber b = none) :
    jsMin a b = none := by
  unfold jsMin
  rw [h]
  cases toNumber a <;> rfl

theorem jsGreaterNum_nan (a : JSValue) : jsGreaterNum a none = false := by
  unfold jsGreaterNum
  cases toNumber a <;> rfl

theorem badDim_of_not_num (v : JSValue) (h : isNum v = false) : badDim v = true := by
  cases v <;> simp_all [isNum, badDim]

/-! ## Claim theorems -/

/-- C1, counterexample: an icon whose only shape is a circle with
fill set to none and a non-null stroke satisfies the claimed outline
condition over the seven shape kinds, yet the code classifies it as
solid (the detection inspects path elements only) and applies the solid
restyling, setting fill on the root.  This refutes the claimed
equivalence and its seven-kind instance. -/
theorem claim_C1_counterexample :
    specIsOutline circleDoc = true
    ∧ isOutlineIcon circleDoc = false
    ∧ (applyColorStyling circleDoc "#123").getAttribute "fill" = some "#123"
    ∧ (applyColorStyling circleDoc "#123").getAttribute "stroke" = none := by
  refine ⟨rfl, rfl, rfl, rfl⟩

/-- C1 (amended): the style transformer classifies the icon as outline
if and only if some descendant path element carries a non-null stroke
attribute, has fill explicitly set to none, or has a falsy (absent or
empty) fill attribute; descendants of the other six shape kinds are not
consulted.  A path-only icon with fill none and a stroke classifies as
outline, a path with a concrete fill and no stroke classifies as solid,
and a circle-only icon classifies as solid regardless of its styling. -/
theorem claim_C1 :
    (∀ d : Elem, isOutlineIcon d = true ↔
        ∃ e, e ∈ d.descendants ∧ e.tag = "path" ∧
          ((e.getAttribute "stroke").isSome = true
            ∨ e.getAttribute "fill" = some "none"
            ∨ attrFalsy (e.getAttribute "fill") = true))
    ∧ isOutlineIcon pathOutlineDoc = true
    ∧ isOutlineIcon pathSolidDoc = false
    ∧ isOutlineIcon circleDoc = false := by
  refine ⟨?_, rfl, rfl, rfl⟩
  intro d
  unfold isOutlineIcon outlineAttrTest
  rw [List.any_eq_true]
  constructor
  · rintro ⟨e, he, hp⟩
    rw [List.mem_filter] at he
    refine ⟨e, he.1, by simpa using he.2, by simpa [or_assoc] using hp⟩
  · rintro ⟨e, he, htag, hdisj⟩
    refine ⟨e, ?_, by simpa [or_assoc] using hdisj⟩
    rw [List.mem_filter]
    exact ⟨he, by simpa using htag⟩

/-- C2, counterexample: for a solid icon whose root svg carries a
pre-existing stroke attribute, restyling leaves that stroke in place
(the stripping pass covers descendants only, and the solid branch never
touches the stroke of the root), contradicting the claim that no
pre-existing fill, stroke or stroke-width value survives on any
element. -/
theorem claim_C2_counterexample :
    rootStrokeDoc.getAttribute "stroke" = some "#f00"
    ∧ isOutlineIcon rootStrokeDoc = false
    ∧ (applyColorStyling rootStrokeDoc "#123").getAttribute "stroke" = some "#f00" := by
  refine ⟨rfl, rfl, rfl⟩

/-- C2 (amended): when a color is supplied, the fill, stroke and
stroke-width attributes of every descendant are stripped before
restyling (the root is not stripped); under outline classification every
shape descendant gets stroke equal to the color, fill none and the
default stroke-width, non-shape descendants keep none of the three
attributes, and the root has its three attributes overwritten with the
outline values; under solid classification every shape descendant gets
fill equal to the color and no stroke or stroke-width, and the root gets
fill equal to the color while its pre-existing stroke and stroke-width
survive. -/
theorem claim_C2 :
    ∀ (root : Elem) (color : String),
      (applyColorStyling root color).descendants.map presentationOf
        = root.descendants.map
            (fun d => styledPresentation (isOutlineIcon root) color d.tag)
      ∧ ((applyColorStyling root color).getAttribute "fill",
         (applyColorStyling root color).getAttribute "stroke",
         (applyColorStyling root color).getAttribute "stroke-width")
          = if isOutlineIcon root then
              (some "none", some color, some DEFAULT_STROKE_WIDTH)
            else
              (some color, root.getAttribute "stroke",
               root.getAttribute "stroke-width") :=
  fun root color =>
    ⟨applyColorStyling_descendants root color, applyColorStyling_root root color⟩

/-- C3: for every configuration input with any icon and source lists,
task planning emits exactly two times the number of icons times the
number of sources tasks; the task at flat position 2(i|sources|+j) is
the square task of icon i and source j and the next position holds the
corresponding wide task, so tasks are ordered by icon, then source, then
square before wide.  Planning is a pure function of its inputs. -/
theorem claim_C3 :
    ∀ (isUrl : String → Bool) (icons : List String)
      (sources : List (String × String)) (settings : TaskSettings),
      (generateTasks isUrl icons sources settings).length
        = 2 * icons.length * sources.length
      ∧ ∀ (i j : Nat) (hi : i < icons.length) (hj : j < sources.length),
          (generateTasks isUrl icons sources settings)[2 * (i * sources.length + j)]?
              = some (squareTaskFor isUrl settings (icons.get ⟨i, hi⟩)
                  (sources.get ⟨j, hj⟩))
          ∧ (generateTasks isUrl icons sources settings)[2 * (i * sources.length + j) + 1]?
              = some (wideTaskFor isUrl settings (icons.get ⟨i, hi⟩)
                  (sources.get ⟨j, hj⟩)) := by
  intro isUrl icons sources settings
  exact ⟨generateTasks_length isUrl icons sources settings,
    fun i j hi hj => generateTasks_getElem isUrl icons sources settings i j hi hj⟩

/-- C3, witness: the indexed order statement evaluated on a concrete
two-icon, one-source configuration. -/
theorem claim_C3_witness :
    (generateTasks (fun _ => false) ["a.svg", "b.svg"] [("./icons", "_s")]
        exSettings).length = 4
    ∧ (generateTasks (fun _ => false) ["a.svg", "b.svg"] [("./icons", "_s")]
        exSettings)[2]?
        = some (squareTaskFor (fun _ => false) exSettings "b.svg" ("./icons", "_s")) := by
  have h := claim_C3 (fun _ => false) ["a.svg", "b.svg"] [("./icons", "_s")] exSettings
  refine ⟨by rw [h.1]; decide, ?_⟩
  have h2 := (h.2 1 0 (by decide) (by decide)).1
  simpa using h2

/-- C4, counterexample: for the icon filename a.svgb.svg, whose first
occurrence of .svg is not the trailing extension, the planner removes
the first occurrence (producing ab.svg) rather than the trailing one
(which would produce a.svgb), so the claimed square output path is not
the one planned. -/
theorem claim_C4_counterexample :
    (squareTaskFor (fun _ => false) exSettings "a.svgb.svg" ("./icons", "_s")).output
        = "out/ab.svg_s.png"
    ∧ ("out/ab.svg_s.png" : String) ≠ "out/a.svgb_s.png" := by
  exact ⟨rfl, by decide⟩

/-- C4 (amended): the square output path is
outputDirectory/basename(icon)suffix.png and the wide output path is
outputDirectory/basename(icon)suffix wideSuffix.png, where basename
removes the FIRST occurrence of .svg in the filename (not specifically a
trailing extension); a name without any occurrence is returned unchanged
without failing, and for a name whose only occurrence is the trailing
extension this coincides with stripping the extension. -/
theorem claim_C4 :
    (∀ (isUrl : String → Bool) (settings : TaskSettings) (iconName : String)
        (sc : String × String),
      (squareTaskFor isUrl settings iconName sc).output
          = pathJoin settings.outputDirectory
              (removeFirstSubstring iconName ".svg" ++ sc.2 ++ ".png")
      ∧ (wideTaskFor isUrl settings iconName sc).output
          = pathJoin settings.outputDirectory
              (removeFirstSubstring iconName ".svg" ++ sc.2
                ++ settings.wideSuffix ++ ".png"))
    ∧ (∀ s : String, hasSubstr s ".svg" = false → removeFirstSubstring s ".svg" = s)
    ∧ removeFirstSubstring "icon.svg" ".svg" = "icon"
    ∧ removeFirstSubstring "a.svgb.svg" ".svg" = "ab.svg" := by
  refine ⟨fun isUrl settings iconName sc => ⟨rfl, rfl⟩, ?_, rfl, rfl⟩
  intro s h
  unfold removeFirstSubstring
  unfold hasSubstr at h
  rw [removeFirstOccur_of_not_has _ _ h]
  cases s
  rfl

/-- C4, witness: a filename without the extension passes through the
planner basename unchanged. -/
theorem claim_C4_witness :
    removeFirstSubstring "logo.png" ".svg" = "logo.png" :=
  claim_C4.2.1 "logo.png" rfl

/-- C5: in batched mode the task list is partitioned into contiguous
groups (flattening the batches in order restores the task list), every
batch is non-empty with at most 4 tasks, a 10-task list yields exactly
the batch size profile 4, 4, 2, and processing accounts for every
outcome of every batch: even when outcomes are failures or rejections in
an early batch, the counters after the run cover all tasks, so no batch
prevents a later batch from running. -/
theorem claim_C5 :
    (∀ tasks : List Task, (toBatches tasks).flatten = tasks)
    ∧ (∀ tasks : List Task,
        (toBatches tasks).all
          (fun b => decide (0 < b.length) && decide (b.length ≤ 4)) = true)
    ∧ (∀ tasks : List Task, (toBatches tasks).map List.length = batchLens tasks.length)
    ∧ ((toBatches (List.replicate 10 exTask)).map List.length = [4, 4, 2])
    ∧ (∀ (stats : RunStats) (outcomes : List Settled),
        (runParallelStats stats outcomes).successful
            + (runParallelStats stats outcomes).failed
          = stats.successful + stats.failed + outcomes.length) := by
  refine ⟨fun tasks => toBatches_flatten tasks,
    fun tasks => toBatches_sizes tasks,
    fun tasks => toBatches_lengths tasks,
    by simp [toBatches, List.replicate], ?_⟩
  intro stats outcomes
  unfold runParallelStats
  rw [foldl_batches recordSettled stats outcomes]
  exact (foldl_recordSettled_counts outcomes stats).1

/-- C6, counterexample: with a retrieval oracle that fails, two
cache-enabled fetches of the same source string perform two underlying
retrievals in one run (a failed retrieval is not cached), refuting the
claim that at most one retrieval happens per distinct source string per
run. -/
theorem claim_C6_counterexample :
    ((fetchContent failWorld "./icons/a.svg" true
        (fetchContent failWorld "./icons/a.svg" true
          (FetchState.mk [] 0)).2).2).retrievals = 2 := by
  rfl

/-- A fetch whose source is cached returns the cached text and leaves
the state unchanged. -/
theorem fetchContent_hit (world : String → Except String String)
    (source : String) (st : FetchState) (t : String)
    (h : cacheLookup st.cache source = some t) :
    fetchContent world source true st = (.ok t, st) := by
  unfold fetchContent
  rw [h]

/-- C6 (amended): when a fetch with useCache true returns text
successfully, that text is cached under the source string, and any
further fetch of the same source returns the identical text verbatim
while leaving the state unchanged — in particular it performs no
underlying retrieval.  So at most one successful retrieval happens per
distinct source string per run; only failed retrievals may repeat. -/
theorem claim_C6 :
    ∀ (world : String → Except String String) (source : String)
      (st : FetchState) (t : String),
      (fetchContent world source true st).1 = .ok t →
        cacheLookup (fetchContent world source true st).2.cache source = some t
        ∧ fetchContent world source true (fetchContent world source true st).2
            = (.ok t, (fetchContent world source true st).2) := by
  intro world source st t h
  have hcached := fetchContent_ok_cached world source st t h
  exact ⟨hcached, fetchContent_hit world source _ t hcached⟩

/-- C6, witness: the cache behaviour evaluated with a concrete
succeeding oracle and an empty initial state. -/
theorem claim_C6_witness :
    fetchContent okWorld "u" true (fetchContent okWorld "u" true
        (FetchState.mk [] 0)).2
      = (.ok "svg text", (fetchContent okWorld "u" true (FetchState.mk [] 0)).2) :=
  (claim_C6 okWorld "u" (FetchState.mk [] 0) "svg text" rfl).2

/-- C9: every recorded result increments exactly one of the successful
or failed counters by one, totalSize grows only on success and by
exactly the recorded byte size (zero when absent), the total field is
never changed by recording, and after processing a whole result list
starting from the freshly initialised statistics, successful plus failed
equals the total fixed before execution and totalSize is the sum of the
successful byte sizes — in sequential mode and in batched mode with
settled outcomes, rejections included. -/
theorem claim_C9 :
    (∀ (stats : RunStats) (r : TaskResult),
      (updateStats stats r).successful
        = stats.successful + (if r.success then 1 else 0)
      ∧ (updateStats stats r).failed
          = stats.failed + (if r.success then 0 else 1)
      ∧ (updateStats stats r).totalSize
          = stats.totalSize + (if r.success then r.size.getD 0 else 0)
      ∧ (updateStats stats r).total = stats.total)
    ∧ (∀ results : List TaskResult,
        (runSequentialStats (initStats results.length) results).successful
            + (runSequentialStats (initStats results.length) results).failed
          = (runSequentialStats (initStats results.length) results).total
        ∧ (runSequentialStats (initStats results.length) results).total
            = results.length
        ∧ (runSequentialStats (initStats results.length) results).totalSize
            = sizeSum results)
    ∧ (∀ outcomes : List Settled,
        (runParallelStats (initStats outcomes.length) outcomes).successful
            + (runParallelStats (initStats outcomes.length) outcomes).failed
          = (runParallelStats (initStats outcomes.length) outcomes).total
        ∧ (runParallelStats (initStats outcomes.length) outcomes).total
            = outcomes.length
        ∧ (runParallelStats (initStats outcomes.length) outcomes).totalSize
            = settledSizeSum outcomes) := by
  refine ⟨fun stats r => updateStats_fields stats r, ?_, ?_⟩
  · intro results
    obtain ⟨h1, h2, h3⟩ := foldl_updateStats_counts results (initStats results.length)
    unfold runSequentialStats
    rw [h1, h2, h3]
    simp [initStats]
  · intro outcomes
    have hfold : runParallelStats (initStats outcomes.length) outcomes
        = outcomes.foldl recordSettled (initStats outcomes.length) := by
      unfold runParallelStats
      exact foldl_batches recordSettled (initStats outcomes.length) outcomes
    obtain ⟨h1, h2, h3⟩ := foldl_recordSettled_counts outcomes (initStats outcomes.length)
    rw [hfold, h1, h2, h3]
    simp [initStats]

/-- C7: configuration validation collects schema violations into one
list whose aggregate message is raised by the load gate before any task
is planned: a configuration whose wide settings have iconSize 200 and
width 180 (height a valid number) is rejected with an error naming
settings.wide.iconSize, a size outside 1..2048 is rejected with an error
naming settings.size, a configuration violating both reports both
messages in one aggregate, and for every configuration with a non-empty
error list the pipeline stops with the aggregate message and produces no
task list. -/
theorem claim_C7 :
    ("settings.wide.iconSize: must be <= min(width, height)"
        ∈ validateConfig cfgWideIconTooBig)
    ∧ ("settings.size: must be a number between 1 and 2048"
        ∈ validateConfig cfgSizeTooBig)
    ∧ validateConfig cfgBothBad
        = ["settings.size: must be a number between 1 and 2048",
           "settings.wide.iconSize: must be <= min(width, height)"]
    ∧ (∀ (isUrl : String → Bool) (c : Config), validateConfig c ≠ [] →
        planRun isUrl c = .error (aggregateMessage (validateConfig c))) := by
  refine ⟨by decide, by decide, by decide, ?_⟩
  intro isUrl c h
  have hempty : (validateConfig c).isEmpty = false := by
    cases hv : validateConfig c
    · exact absurd hv h
    · rfl
  have hl : loadConfigCheck c = .error (aggregateMessage (validateConfig c)) := by
    simp [loadConfigCheck, hempty]
  unfold planRun
  rw [hl]

/-- C7, witness: the pipeline halts with the aggregate error on the
concrete configuration whose wide icon size exceeds its width. -/
theorem claim_C7_witness :
    planRun (fun _ => false) cfgWideIconTooBig
      = .error (aggregateMessage (validateConfig cfgWideIconTooBig)) :=
  claim_C7.2.2.2 (fun _ => false) cfgWideIconTooBig (by decide)

/-- C8: the wide composite offsets are computed by rounding half the
free space in each dimension; for canvas 320 by 180 with icon size 160
the offsets are left 80 and top 10, and in general twice the offset
differs from the free space by at most one (the rounding property of
Math.round on halves). -/
theorem claim_C8 :
    convertWideOffsets 320 180 160 = (80, 10)
    ∧ (∀ width height iconSize : ℤ,
        (0 ≤ 2 * (convertWideOffsets width height iconSize).1 - (width - iconSize)
          ∧ 2 * (convertWideOffsets width height iconSize).1 - (width - iconSize) ≤ 1)
        ∧ (0 ≤ 2 * (convertWideOffsets width height iconSize).2 - (height - iconSize)
          ∧ 2 * (convertWideOffsets width height iconSize).2 - (height - iconSize) ≤ 1)) := by
  constructor
  · unfold convertWideOffsets
    norm_num
    constructor <;> apply jsRound_eq <;> norm_num
  · intro width height iconSize
    unfold convertWideOffsets
    constructor
    · have h := jsRound_half_bounds (width - iconSize)
      simpa using h
    · have h := jsRound_half_bounds (height - iconSize)
      simpa using h

/-- C10, counterexample: with wide width null (not a number), height
180 and iconSize 200, Math.min coerces null to 0, the comparison 200
greater-than 0 holds, and the aggregate contains BOTH the width type
error and the error naming settings.wide.iconSize — refuting the claim
that the bound check never fires when a dimension is not a number and
that only the type error appears. -/
theorem claim_C10_counterexample :
    isNum JSValue.nullV = false
    ∧ validateWideSettings (some wideNullWidth)
        = ["settings.wide.width: must be a positive number",
           "settings.wide.iconSize: must be <= min(width, height)"] := by
  exact ⟨rfl, rfl⟩

/-- C10 (amended): the bound check compares against the coerced minimum.
When a wide dimension coerces to NaN under ToNumber (for example
undefined, or a non-numeric string), the comparison is false and no
error naming settings.wide.iconSize on that ground is reported, while
the dimension type error still appears — as for the undefined width
instance where only the type error is listed.  But a non-number
dimension that ToNumber coerces to a number (null to 0, booleans,
numeric strings such as 12.5) can still make the bound check fire: with
width the string 12.5, height 180 and iconSize 200 the aggregate lists
both the width type error and the iconSize bound error. -/
theorem claim_C10 :
    (∀ wide : WideSettings,
      toNumber wide.width = none ∨ toNumber wide.height = none →
        "settings.wide.iconSize: must be <= min(width, height)"
          ∉ validateWideSettings (some wide))
    ∧ (∀ wide : WideSettings, isNum wide.width = false →
        "settings.wide.width: must be a positive number"
          ∈ validateWideSettings (some wide))
    ∧ validateWideSettings (some wideUndefWidth)
        = ["settings.wide.width: must be a positive number"]
    ∧ validateWideSettings (some wideStrWidth)
        = ["settings.wide.width: must be a positive number",
           "settings.wide.iconSize: must be <= min(width, height)"] := by
  refine ⟨?_, ?_, rfl, ?_⟩
  · intro wide hnan
    have hmin : jsMin wide.width wide.height = none := by
      rcases hnan with h | h
      · exact jsMin_nan_left _ _ h
      · exact jsMin_nan_right _ _ h
    have hgt : jsGreaterNum wide.iconSize (jsMin wide.width wide.height) = false := by
      rw [hmin]
      exact jsGreaterNum_nan _
    simp only [validateWideSettings]
    rw [hgt]
    simp only [Bool.false_eq_true, if_false, List.append_nil]
    split_ifs <;> decide
  · intro wide h
    have hbad : badDim wide.width = true := badDim_of_not_num _ h
    simp only [validateWideSettings]
    rw [hbad]
    simp
  · have hmin : jsMin wideStrWidth.width wideStrWidth.height
        = some (.finite (min (((12 : ℚ) + (5 : ℚ) / (10 : ℚ) ^ (1 : ℕ))
            * (10 : ℚ) ^ (0 : ℤ)) ((180 : Int) : ℚ))) := rfl
    have hminval : (min (((12 : ℚ) + (5 : ℚ) / (10 : ℚ) ^ (1 : ℕ))
        * (10 : ℚ) ^ (0 : ℤ)) ((180 : Int) : ℚ)) = 25 / 2 := by
      rw [min_eq_left (by norm_num)]
      norm_num
    have hgt : jsGreaterNum wideStrWidth.iconSize
        (jsMin wideStrWidth.width wideStrWidth.height) = true := by
      rw [hmin, hminval]
      simp only [wideStrWidth, jsGreaterNum, toNumber, jsNumGt]
      rw [decide_eq_true_eq]
      norm_num
    simp only [validateWideSettings, hgt]
    simp [wideStrWidth, badDim]

/-- C10, witness: with an undefined width the bound check does not fire
even though the icon size exceeds the only dimension given. -/
theorem claim_C10_witness :
    "settings.wide.iconSize: must be <= min(width, height)"
      ∉ validateWideSettings (some wideUndefWidth) :=
  claim_C10.1 wideUndefWidth (Or.inl rfl)

end Svg2Png
